import Mathlib

/-!
Verification of the matching / scoring / alerting / notification core of the
monitor-fenajufe repository.  The repository has two Python sources:

* `monitor_interesses.py` — dashboard engine (`MatchingEngine`, `SistemaAlertas`),
  embedded below in namespace `Monitor`;
* `notificar_fenajufe_interesses.py` — the notifier script (its own
  `calcular_match`, dedup history, daily digest and scan loop), embedded in
  namespace `Notificar`.

Python strings are modelled as `List Char` (`Str`), so that substring search,
normalization and sorting are all executable.  Python `float` scores are
modelled as `Int`: every quantity entering a score is an integer and every
operation used (`*`, `+`, `min`) is exact on integers of this size in IEEE
doubles, so the model is faithful on the reachable values.
-/

set_option maxRecDepth 20000

/-- Python `str`, modelled as a list of characters. -/
abbrev Str := List Char

/-- Python's substring test `needle in hay` (note `"" in s` is `True`). -/
def isSubstr (needle : Str) : Str → Bool
  | [] => needle.isEmpty
  | c :: rest => needle.isPrefixOf (c :: rest) || isSubstr needle rest

/-- One step of `unicodedata.normalize("NFD", ·)` followed by dropping combining
marks, per character, for the Latin characters that occur in this repository's
vocabularies and data (the accented characters decompose into the base letter
plus a combining mark, which is then removed). -/
def stripAccent : Char → Char
  | 'á' | 'à' | 'â' | 'ã' | 'ä' => 'a'
  | 'Á' | 'À' | 'Â' | 'Ã' | 'Ä' => 'A'
  | 'é' | 'ê' | 'è' => 'e'
  | 'É' | 'Ê' | 'È' => 'E'
  | 'í' | 'î' | 'ì' => 'i'
  | 'Í' | 'Î' | 'Ì' => 'I'
  | 'ó' | 'ô' | 'õ' | 'ò' | 'ö' => 'o'
  | 'Ó' | 'Ô' | 'Õ' | 'Ò' | 'Ö' => 'O'
  | 'ú' | 'û' | 'ù' | 'ü' => 'u'
  | 'Ú' | 'Û' | 'Ù' | 'Ü' => 'U'
  | 'ç' => 'c'
  | 'Ç' => 'C'
  | c => c

/-- Python `str.strip()` (leading and trailing whitespace removed). -/
def pyStrip (s : Str) : Str :=
  ((s.dropWhile Char.isWhitespace).reverse.dropWhile Char.isWhitespace).reverse

/-- `normalize_text` (identical in both source files): NFD-decompose, drop
combining marks, lowercase, strip. -/
def normalize_text (s : Str) : Str :=
  pyStrip ((s.map stripAccent).map Char.toLower)

/-- The proposal record consumed by both matchers: identification fields plus
the flattened `statusProposicao` sub-object (situation description, timestamp,
urgency regime).  `dataHora` stands for the refreshed status timestamp
(`fetch_status_proposicao(...).dataHora or statusProposicao.dataHora`). -/
structure Proposicao where
  id : Str
  siglaTipo : Str
  numero : Str
  ano : Str
  ementa : Str
  keywords : Str
  descricaoTipo : Str
  descricaoSituacao : Str
  dataHora : Str
  regime : Str
deriving DecidableEq, Repr

/-- The analysis text `f"{ementa} {keywords} {descricao}"` built from the three
independently normalized free-text fields (identical in both files). -/
def texto_analise (p : Proposicao) : Str :=
  normalize_text p.ementa ++ (' ' :: normalize_text p.keywords)
    ++ (' ' :: normalize_text p.descricaoTipo)

/-- Alert levels (`NivelAlerta` enum in `monitor_interesses.py`; the notifier
uses the same four first names as plain strings). -/
inductive NivelAlerta
  | Critico
  | Alto
  | Medio
  | Baixo
  | Info
deriving DecidableEq, Repr, Inhabited

/-- `format_sigla_num_ano` (identical logic in both files). -/
def format_sigla_num_ano (sigla numero ano : Str) : Str :=
  let s := pyStrip sigla
  let n := pyStrip numero
  let a := pyStrip ano
  if !s.isEmpty && !n.isEmpty && !a.isEmpty then s ++ (' ' :: n) ++ ('/' :: a) else []

namespace Monitor

/-- `SITUACOES_PAUTA` from `monitor_interesses.py`, verbatim (note the accents). -/
def SITUACOES_PAUTA : List Str :=
  ["incluída na ordem do dia".data, "em pauta".data, "pronta para pauta".data,
   "aguardando deliberação".data, "matéria em votação".data]

/-- `SITUACOES_TRAMITACAO_ATIVA` from `monitor_interesses.py`, verbatim. -/
def SITUACOES_TRAMITACAO_ATIVA : List Str :=
  ["aguardando parecer".data, "aguardando designação de relator".data,
   "em tramitação".data, "pronta para deliberação".data]

/-- `SITUACOES_FORA_TRAMITACAO` from `monitor_interesses.py`, verbatim
(several entries keep their accents in the source). -/
def SITUACOES_FORA_TRAMITACAO : List Str :=
  ["arquivada".data, "arquivado".data,
   "transformada em norma jurídica".data, "transformado em norma jurídica".data,
   "transformada em lei".data,
   "perdeu a eficácia".data, "perda de eficácia".data,
   "retirada pelo autor".data, "retirado pelo autor".data,
   "prejudicada".data, "prejudicado".data,
   "devolvida ao autor".data, "devolvido ao autor".data,
   "vetado totalmente".data,
   "declarada prejudicada".data, "declarado prejudicado".data,
   "rejeitada".data, "rejeitado".data,
   "não apreciada".data, "não apreciado".data]

/-- `PESO_TIPO_PROPOSICAO.get(tipo, 1)` — impact weight per proposal type. -/
def PESO_TIPO_PROPOSICAO (tipo : Str) : Int :=
  if tipo = "PEC".data then 5
  else if tipo = "PLP".data then 4
  else if tipo = "MPV".data then 4
  else if tipo = "PL".data then 3
  else if tipo = "PDL".data then 2
  else if tipo = "PRC".data then 1
  else if tipo = "REQ".data then 1
  else 1

/-- The prepared patterns of `MatchingEngine` after `_prepare_patterns`
(each list already `normalize_text`-ed from `ConfiguracaoCliente`). -/
structure MatchingEngine where
  id_cliente : Str
  palavras_principais : List Str
  palavras_exclusao : List Str
  temas_palavras : List (Str × List Str)
deriving Repr

/-- The `Match` dataclass (the detection timestamp, a wall-clock side value,
is omitted from the model).  `temas_match` / `palavras_match` are built by
Python's `list(set(x))`, whose iteration order is unspecified; they are
modelled by `List.dedup`, and no theorem below depends on their order. -/
structure Match where
  proposicao_id : Str
  cliente_id : Str
  score_relevancia : Int
  temas_match : List Str
  palavras_match : List Str
  nivel_alerta : NivelAlerta
deriving Repr

/-- `any(s in situacao for s in SITUACOES_PAUTA)` on the normalized situation. -/
def em_pauta (p : Proposicao) : Bool :=
  SITUACOES_PAUTA.any fun s => isSubstr s (normalize_text p.descricaoSituacao)

/-- `any(s in situacao for s in SITUACOES_TRAMITACAO_ATIVA)`. -/
def tramitacao_ativa (p : Proposicao) : Bool :=
  SITUACOES_TRAMITACAO_ATIVA.any fun s => isSubstr s (normalize_text p.descricaoSituacao)

/-- `"urgencia" in regime or "urgente" in regime` on the normalized regime. -/
def regime_urgente (p : Proposicao) : Bool :=
  isSubstr ("urgencia".data) (normalize_text p.regime)
    || isSubstr ("urgente".data) (normalize_text p.regime)

/-- `MatchingEngine._calcular_score`: keyword points (cap 40), theme points
(cap 30), proposal-type points, situation points, clamped by `min(score, 100)`. -/
def _calcular_score (p : Proposicao) (palavras_match temas_match : List Str) : Int :=
  min (min ((palavras_match.length : Int) * 10) 40
      + min ((temas_match.length : Int) * 10) 30
      + PESO_TIPO_PROPOSICAO (p.siglaTipo.map Char.toUpper) * 3
      + (if em_pauta p then 15 else if tramitacao_ativa p then 10 else 0)) 100

/-- `MatchingEngine._determinar_nivel_alerta`. -/
def _determinar_nivel_alerta (p : Proposicao) (score : Int) : NivelAlerta :=
  if em_pauta p then .Critico
  else if regime_urgente p then .Alto
  else if 70 ≤ score then .Alto
  else if 50 ≤ score then .Medio
  else if 30 ≤ score then .Baixo
  else .Info

/-- `any(sit_fora in situacao for sit_fora in SITUACOES_FORA_TRAMITACAO)`:
the raw vocabulary entries are searched inside the *normalized* situation. -/
def situacao_fora (p : Proposicao) : Bool :=
  SITUACOES_FORA_TRAMITACAO.any fun s => isSubstr s (normalize_text p.descricaoSituacao)

/-- `MatchingEngine.calcular_match`: exclusion check, out-of-tramitation check,
keyword and theme collection (one keyword per theme suffices), score, level. -/
def MatchingEngine.calcular_match (eng : MatchingEngine) (p : Proposicao) : Option Match :=
  let texto := texto_analise p
  if eng.palavras_exclusao.any (fun e => isSubstr e texto) then none
  else if situacao_fora p then none
  else
    let palavras_match := eng.palavras_principais.filter fun w => isSubstr w texto
    let temas_match := eng.temas_palavras.filterMap fun tp =>
      if tp.2.any (fun w => isSubstr w texto) then some tp.1 else none
    if palavras_match.isEmpty && temas_match.isEmpty then none
    else
      let score := _calcular_score p palavras_match temas_match
      some { proposicao_id := p.id
             cliente_id := eng.id_cliente
             score_relevancia := score
             temas_match := temas_match.dedup
             palavras_match := palavras_match.dedup
             nivel_alerta := _determinar_nivel_alerta p score }

end Monitor

namespace Notificar

/-- `EXCLUSOES_GLOBAIS` from `notificar_fenajufe_interesses.py`, verbatim. -/
def EXCLUSOES_GLOBAIS : List Str :=
  ["radiodifusao".data, "radio difusora".data, "emissora de radio".data,
   "frequencia modulada".data, "onda media".data, "radio comunitaria".data,
   "televisao".data, "tv ".data,
   "denomina".data, "denominacao".data, "homenagem".data, "dia nacional".data,
   "dia municipal".data, "patrono".data, "patrona".data, "titulo de cidadao".data,
   "medalha".data, "comenda".data,
   "utilidade publica".data, "declara de utilidade".data,
   "rodovia".data, "aeroporto".data, "ponte".data, "viaduto".data, "praca".data]

/-- `SITUACOES_ENCERRADAS` from `notificar_fenajufe_interesses.py`, verbatim
(this v2 list is written without accents). -/
def SITUACOES_ENCERRADAS : List Str :=
  ["arquivada".data, "arquivado".data,
   "transformada em norma".data, "transformado em norma".data,
   "transformada em lei".data, "transformado em lei".data,
   "perdeu a eficacia".data, "perda de eficacia".data,
   "retirada pelo autor".data, "retirado pelo autor".data,
   "prejudicada".data, "prejudicado".data,
   "rejeitada".data, "rejeitado".data,
   "vetado totalmente".data,
   "devolvida ao autor".data, "devolvido ao autor".data]

/-- The configuration produced by `parse_config_fenajufe`: theme map
(name ↦ normalized keywords, in TOML order), theme weights, exclusion terms,
top-level priority keywords and their weight. -/
structure Cfg where
  temas : List (Str × List Str)
  tema_pesos : List (Str × Int)
  exclusoes : List Str
  palavras_principais : List Str
  peso_topo : Int
deriving Repr

/-- `cfg["tema_pesos"].get(tema, 10)`. -/
def lookupPeso (m : List (Str × Int)) (k : Str) : Int :=
  ((m.find? fun e => e.1 = k).map Prod.snd).getD 10

/-- `exclusoes = list(set(exclusoes_toml + EXCLUSOES_GLOBAIS))` inside
`parse_config_fenajufe` (set iteration order is unspecified; only membership
matters below). -/
def parse_exclusoes (exclusoes_toml : List Str) : List Str :=
  (exclusoes_toml ++ EXCLUSOES_GLOBAIS).dedup

/-- The record returned by the notifier's `calcular_match`. -/
structure MatchFen where
  proposicao_id : Str
  temas_match : List Str
  palavras_match : List Str
  score : Int
  nivel : NivelAlerta
deriving DecidableEq, Repr

/-- `sorted(list(set(l)))` — Python's ascending lexicographic sort of the
distinct elements.  On duplicate-free input `insertionSort` returns the unique
`≤`-sorted permutation, which is what `sorted` returns. -/
def sortedSet (l : List Str) : List Str :=
  (l.dedup).insertionSort (· ≤ ·)

/-- Situation check `any(sit in situacao for sit in SITUACOES_ENCERRADAS)`. -/
def situacao_encerrada (p : Proposicao) : Bool :=
  SITUACOES_ENCERRADAS.any fun s => isSubstr s (normalize_text p.descricaoSituacao)

/-- Exclusion check `any(exc and exc in texto for exc in cfg["exclusoes"])`
(the Python loop skips falsy, i.e. empty, terms). -/
def texto_excluido (cfg : Cfg) (texto : Str) : Bool :=
  cfg.exclusoes.any fun e => !e.isEmpty && isSubstr e texto

/-- Priority-keyword collection: `[p for p in palavras_principais if p and p in texto]`. -/
def palavras_match_de (cfg : Cfg) (texto : Str) : List Str :=
  cfg.palavras_principais.filter fun w => !w.isEmpty && isSubstr w texto

/-- Per-theme first matching keyword (`for p in palavras: if p and p in texto:
... break`): the theme name paired with the first keyword found in the text. -/
def temaHit (texto : Str) (tp : Str × List Str) : Option (Str × Str) :=
  (tp.2.find? fun w => !w.isEmpty && isSubstr w texto).map fun w => (tp.1, w)

/-- The `(tema, palavra)` pairs collected by the theme loop, in theme order. -/
def temaHits (cfg : Cfg) (texto : Str) : List (Str × Str) :=
  cfg.temas.filterMap (temaHit texto)

/-- `"urgencia" in regime` on the normalized regime. -/
def regime_urgencia (p : Proposicao) : Bool :=
  isSubstr ("urgencia".data) (normalize_text p.regime)

/-- The in-agenda vocabulary of the notifier's level rule. -/
def PAUTA_TERMOS : List Str :=
  ["ordem do dia".data, "em pauta".data, "incluida na ordem".data, "em votacao".data]

/-- `any(x in situacao_norm for x in [...])` in the notifier's level rule. -/
def situacao_pauta (p : Proposicao) : Bool :=
  PAUTA_TERMOS.any fun s => isSubstr s (normalize_text p.descricaoSituacao)

/-- The notifier's score: `min(len(palavras_match)*peso_topo, 40)` plus
`min(peso, 20)` per distinct matched theme, `+15` for two or more distinct
themes, `+20` for an urgency regime, finally `min(score, 100)`.
`temasDistintos` is the list of distinct matched themes (`set(temas_match)`). -/
def score_fen (peso_topo : Int) (tema_pesos : List (Str × Int)) (nPalavras : Nat)
    (temasDistintos : List Str) (urgencia : Bool) : Int :=
  min (min ((nPalavras : Int) * peso_topo) 40
      + (temasDistintos.map fun t => min (lookupPeso tema_pesos t) 20).sum
      + (if 2 ≤ temasDistintos.length then 15 else 0)
      + (if urgencia then 20 else 0)) 100

/-- The notifier's inline alert level: agenda vocabulary → Critico, urgency
regime or score ≥ 60 → Alto, score ≥ 40 → Medio, else Baixo. -/
def nivel_fen (p : Proposicao) (score : Int) : NivelAlerta :=
  if situacao_pauta p then .Critico
  else if regime_urgencia p || 60 ≤ score then .Alto
  else if 40 ≤ score then .Medio
  else .Baixo

/-- `calcular_match` from `notificar_fenajufe_interesses.py`: closed-situation
filter, exclusion filter, keyword/theme matching, weighted score, level, and a
result with `sorted(list(set(...)))` theme and keyword lists, the keyword list
truncated to 10 entries. -/
def calcular_match (p : Proposicao) (cfg : Cfg) : Option MatchFen :=
  let texto := texto_analise p
  if situacao_encerrada p then none
  else if texto_excluido cfg texto then none
  else
    let pm := palavras_match_de cfg texto
    let hits := temaHits cfg texto
    let tm := hits.map Prod.fst
    if pm.isEmpty && tm.isEmpty then none
    else
      let score := score_fen cfg.peso_topo cfg.tema_pesos pm.length tm.dedup (regime_urgencia p)
      some { proposicao_id := p.id
             temas_match := sortedSet tm
             palavras_match := (sortedSet (pm ++ hits.map Prod.snd)).take 10
             score := score
             nivel := nivel_fen p score }

/-- Metadata stored under a dedup key in `historico["notificados"]`. -/
structure RegistroNotificacao where
  ts : Str
  proposicao : Str
  nivel : NivelAlerta
  score : Int
deriving Repr, Inhabited

/-- The dedup history `historico["notificados"]`: a string-keyed map, modelled
as an association list in insertion order. -/
abbrev Historico := List (Str × RegistroNotificacao)

/-- `chave_notificacao`: `f"{proposicao_id}::{datahora_status or 'sem_data'}"`. -/
def chave_notificacao (proposicao_id datahora_status : Str) : Str :=
  proposicao_id ++ (("::".data) ++ (if datahora_status.isEmpty then "sem_data".data else datahora_status))

/-- The dedup check `key in historico["notificados"]`. -/
def jaNotificado (key : Str) (h : Historico) : Bool :=
  (List.any h fun e => e.1 = key)

/-- The dict assignment `historico["notificados"][key] = meta` (overwrite if
present, append otherwise). -/
def registrar (key : Str) (meta : RegistroNotificacao) (h : Historico) : Historico :=
  if jaNotificado key h then
    h.map fun e => if e.1 = key then (key, meta) else e
  else h ++ [(key, meta)]

/-- The daily digest file `resumo_dia_fenajufe.json`: stored date plus the
insertion-ordered labels added that day. -/
structure ResumoDia where
  data : Str
  itens : List Str
deriving DecidableEq, Repr

/-- `carregar_resumo_dia`: load the stored digest; an absent or unreadable file
degrades to the default `{"data": "", "itens": []}`. -/
def carregar_resumo_dia (stored : Option ResumoDia) : ResumoDia :=
  stored.getD { data := [], itens := [] }

/-- `inicializar_resumo_dia` with the current day `hoje`. -/
def inicializar_resumo_dia (hoje : Str) : ResumoDia :=
  { data := hoje, itens := [] }

/-- `adicionar_ao_resumo`: reload, reset when the stored date differs from the
current day `hoje`, append the label unless already present, save. -/
def adicionar_ao_resumo (stored : Option ResumoDia) (hoje : Str) (sigla : Str) : ResumoDia :=
  let resumo := carregar_resumo_dia stored
  let resumo := if resumo.data ≠ hoje then { data := hoje, itens := [] } else resumo
  if sigla ∈ resumo.itens then resumo else { data := resumo.data, itens := resumo.itens ++ [sigla] }

/-- Observable actions of one scan item, in program order: the in-memory
history write, the `salvar_historico` persistence, the outbound send attempt
(`notificar_ambos`), and the digest update (`adicionar_ao_resumo`). -/
inductive Evento
  | registra (key : Str)
  | persiste
  | envia (key : Str)
  | resumo (sigla : Str)
deriving DecidableEq, Repr

/-- The display label used by the scan:
`format_sigla_num_ano(...) or f"ID {pid}"`. -/
def sigla_item (p : Proposicao) : Str :=
  let s := format_sigla_num_ano p.siglaTipo p.numero p.ano
  if s.isEmpty then ("ID ".data) ++ p.id else s

/-- One iteration of the `executar_varredura` loop body for proposal `p`
against history `h`: skip on empty id, no match, score below the minimum, or
an already-notified dedup key; otherwise record the key, persist the history,
attempt the sends, and update the digest — in exactly that order.  The
wall-clock metadata timestamp is abstracted as `ts`. -/
def passo_varredura (cfg : Cfg) (scoreMinimo : Int) (ts : Str) (p : Proposicao)
    (h : Historico) : List Evento × Historico :=
  if p.id.isEmpty then ([], h)
  else
    match calcular_match p cfg with
    | none => ([], h)
    | some m =>
      if m.score < scoreMinimo then ([], h)
      else
        let key := chave_notificacao p.id p.dataHora
        if jaNotificado key h then ([], h)
        else
          let meta : RegistroNotificacao :=
            { ts := ts
              proposicao := format_sigla_num_ano p.siglaTipo p.numero p.ano
              nivel := m.nivel
              score := m.score }
          ([Evento.registra key, Evento.persiste, Evento.envia key,
            Evento.resumo (sigla_item p)],
           registrar key meta h)

/-- The scan over all fetched proposals: the event trace of the run and the
final history, folding `passo_varredura` in fetch order. -/
def executar_varredura (cfg : Cfg) (scoreMinimo : Int) (ts : Str)
    (props : List Proposicao) (h : Historico) : List Evento × Historico :=
  props.foldl
    (fun acc p =>
      let r := passo_varredura cfg scoreMinimo ts p acc.2
      (acc.1 ++ r.1, r.2))
    ([], h)

end Notificar

namespace Monitor

/-- The alerting-related fields of `ConfiguracaoCliente` (a missing
`telegram_chat_id`, Python `None`, is modelled as the empty string, which the
source treats identically via falsiness). -/
structure ConfiguracaoCliente where
  telegram_chat_id : Str
  horario_silencioso_inicio : Nat
  horario_silencioso_fim : Nat
deriving Repr

/-- `is_horario_silencioso`, with the current Brasília hour passed explicitly
(the source reads it from the wall clock). -/
def is_horario_silencioso (config : ConfiguracaoCliente) (hora_atual : Nat) : Bool :=
  if config.horario_silencioso_fim < config.horario_silencioso_inicio then
    decide (config.horario_silencioso_inicio ≤ hora_atual)
      || decide (hora_atual < config.horario_silencioso_fim)
  else
    decide (config.horario_silencioso_inicio ≤ hora_atual)
      && decide (hora_atual < config.horario_silencioso_fim)

/-- Outcome of `SistemaAlertas.enviar_telegram`: whether an HTTP send was
attempted, and the boolean the function returns. -/
structure EnvioTelegram where
  tentou_envio : Bool
  retorno : Bool
deriving DecidableEq, Repr

/-- `SistemaAlertas.enviar_telegram`: missing credentials → `False` with no
attempt; non-critical level during quiet hours → `False` with no attempt;
otherwise the HTTP post is attempted and its success (`rede_ok`, standing for
`status_code == 200` with exceptions mapped to `False`) is returned. -/
def SistemaAlertas.enviar_telegram (config : ConfiguracaoCliente) (bot_token : Str)
    (hora_atual : Nat) (nivel : NivelAlerta) (rede_ok : Bool) : EnvioTelegram :=
  if config.telegram_chat_id.isEmpty || bot_token.isEmpty then
    { tentou_envio := false, retorno := false }
  else if nivel ≠ NivelAlerta.Critico && is_horario_silencioso config hora_atual then
    { tentou_envio := false, retorno := false }
  else
    { tentou_envio := true, retorno := rede_ok }

end Monitor

/-! ### Helper lemmas -/

theorem any_isSubstr_of_mem {l : List Str} {s texto : Str}
    (hmem : s ∈ l) (hsub : isSubstr s texto = true) :
    (l.any fun t => isSubstr t texto) = true :=
  List.any_eq_true.mpr ⟨s, hmem, hsub⟩

theorem jaNotificado_iff {key : Str} {h : Notificar.Historico} :
    Notificar.jaNotificado key h = true ↔ ∃ e ∈ h, e.1 = key := by
  unfold Notificar.jaNotificado
  simp [List.any_eq_true]

theorem jaNotificado_registrar_self (key : Str) (meta : Notificar.RegistroNotificacao)
    (h : Notificar.Historico) :
    Notificar.jaNotificado key (Notificar.registrar key meta h) = true := by
  rw [jaNotificado_iff]
  unfold Notificar.registrar
  cases hj : Notificar.jaNotificado key h
  · simp
  · rcases jaNotificado_iff.mp hj with ⟨e, he, hek⟩
    simp only [if_true]
    exact ⟨(key, meta), List.mem_map.mpr ⟨e, he, by simp [hek]⟩, rfl⟩

/-! ### Claim theorems -/

/-- Concrete interest profile used in examples: a single priority keyword. -/
def cfgHom : Notificar.Cfg :=
  { temas := []
    tema_pesos := []
    exclusoes := Notificar.parse_exclusoes []
    palavras_principais := ["servidor".data]
    peso_topo := 10 }

/-- A proposal whose summary holds both a global exclusion term and a priority
keyword of `cfgHom`. -/
def propHom : Proposicao :=
  { id := "55".data, siglaTipo := "PL".data, numero := "4".data, ano := "2025".data
    ementa := "Presta homenagem ao servidor do judiciário".data
    keywords := [], descricaoTipo := []
    descricaoSituacao := "Em tramitação".data, dataHora := [], regime := [] }

/-- C2: if the normalized analysis text contains a configured (or, after
`parse_config_fenajufe`, globally-fixed) exclusion term, `calcular_match`
returns `None` no matter which keywords or themes also occur; the same holds
for `MatchingEngine.calcular_match` and its configured exclusion terms
(there with no non-emptiness proviso, since the engine has no falsiness
guard). -/
theorem exclusao_sempre_vence :
    (∀ (p : Proposicao) (cfg : Notificar.Cfg) (exc : Str),
        exc ∈ cfg.exclusoes → exc ≠ [] → isSubstr exc (texto_analise p) = true →
        Notificar.calcular_match p cfg = none)
    ∧ (∀ (exclusoes_toml : List Str) (exc : Str),
        exc ∈ Notificar.EXCLUSOES_GLOBAIS → exc ∈ Notificar.parse_exclusoes exclusoes_toml)
    ∧ (∀ (eng : Monitor.MatchingEngine) (p : Proposicao) (exc : Str),
        exc ∈ eng.palavras_exclusao → isSubstr exc (texto_analise p) = true →
        eng.calcular_match p = none) := by
  refine ⟨?_, ?_, ?_⟩
  · intro p cfg exc hmem hne hsub
    have hexc : Notificar.texto_excluido cfg (texto_analise p) = true := by
      refine List.any_eq_true.mpr ⟨exc, hmem, ?_⟩
      simp [List.isEmpty_iff, hne, hsub]
    unfold Notificar.calcular_match
    cases hsit : Notificar.situacao_encerrada p
    · simp [hsit, hexc]
    · simp [hsit]
  · intro toml exc hmem
    unfold Notificar.parse_exclusoes
    rw [List.mem_dedup]
    exact List.mem_append_right _ hmem
  · intro eng p exc hmem hsub
    have hexc : (eng.palavras_exclusao.any fun e => isSubstr e (texto_analise p)) = true :=
      any_isSubstr_of_mem hmem hsub
    unfold Monitor.MatchingEngine.calcular_match
    simp [hexc]

/-- Witness for `exclusao_sempre_vence`: the spec's own scenario — a summary
holding the global exclusion term "homenagem" and a priority keyword yields no
match. -/
theorem exclusao_sempre_vence_witness :
    (("homenagem".data) ∈ cfgHom.exclusoes
      ∧ isSubstr ("homenagem".data) (texto_analise propHom) = true
      ∧ isSubstr ("servidor".data) (texto_analise propHom) = true)
    ∧ Notificar.calcular_match propHom cfgHom = none :=
  ⟨⟨by decide, by decide, by decide⟩,
   exclusao_sempre_vence.1 propHom cfgHom ("homenagem".data)
     (by decide) (by decide) (by decide)⟩

/-- C4: the alert classifier `_determinar_nivel_alerta` applies its rules in
the fixed order: in-agenda situation → Critico; otherwise urgency regime →
Alto; otherwise score thresholds 70/50/30 → Alto/Medio/Baixo, below → Info. -/
theorem nivel_alerta_ordem_fixa :
    (∀ (p : Proposicao) (score : Int), Monitor.em_pauta p = true →
        Monitor._determinar_nivel_alerta p score = NivelAlerta.Critico)
    ∧ (∀ (p : Proposicao) (score : Int), Monitor.em_pauta p = false →
        Monitor.regime_urgente p = true →
        Monitor._determinar_nivel_alerta p score = NivelAlerta.Alto)
    ∧ (∀ (p : Proposicao) (score : Int), Monitor.em_pauta p = false →
        Monitor.regime_urgente p = false → 70 ≤ score →
        Monitor._determinar_nivel_alerta p score = NivelAlerta.Alto)
    ∧ (∀ (p : Proposicao) (score : Int), Monitor.em_pauta p = false →
        Monitor.regime_urgente p = false → 50 ≤ score → score < 70 →
        Monitor._determinar_nivel_alerta p score = NivelAlerta.Medio)
    ∧ (∀ (p : Proposicao) (score : Int), Monitor.em_pauta p = false →
        Monitor.regime_urgente p = false → 30 ≤ score → score < 50 →
        Monitor._determinar_nivel_alerta p score = NivelAlerta.Baixo)
    ∧ (∀ (p : Proposicao) (score : Int), Monitor.em_pauta p = false →
        Monitor.regime_urgente p = false → score < 30 →
        Monitor._determinar_nivel_alerta p score = NivelAlerta.Info) := by
  refine ⟨?_, ?_, ?_, ?_, ?_, ?_⟩
  · intro p score h1
    unfold Monitor._determinar_nivel_alerta
    simp [h1]
  · intro p score h1 h2
    unfold Monitor._determinar_nivel_alerta
    simp [h1, h2]
  · intro p score h1 h2 h3
    unfold Monitor._determinar_nivel_alerta
    simp [h1, h2, h3]
  · intro p score h1 h2 h3 h4
    have n70 : ¬ (70 : Int) ≤ score := by omega
    unfold Monitor._determinar_nivel_alerta
    simp [h1, h2, h3, n70]
  · intro p score h1 h2 h3 h4
    have n70 : ¬ (70 : Int) ≤ score := by omega
    have n50 : ¬ (50 : Int) ≤ score := by omega
    unfold Monitor._determinar_nivel_alerta
    simp [h1, h2, h3, n70, n50]
  · intro p score h1 h2 h3
    have n70 : ¬ (70 : Int) ≤ score := by omega
    have n50 : ¬ (50 : Int) ≤ score := by omega
    have n30 : ¬ (30 : Int) ≤ score := by omega
    unfold Monitor._determinar_nivel_alerta
    simp [h1, h2, h3, n70, n50, n30]

/-- The type-weight lookup never answers below its default. -/
theorem PESO_TIPO_PROPOSICAO_pos (tipo : Str) : 1 ≤ Monitor.PESO_TIPO_PROPOSICAO tipo := by
  unfold Monitor.PESO_TIPO_PROPOSICAO
  repeat' split
  all_goals norm_num

/-- A profile whose top-level keyword weight is configured negative
(`parse_config_fenajufe` accepts any TOML integer unvalidated). -/
def cfgNeg : Notificar.Cfg :=
  { temas := []
    tema_pesos := []
    exclusoes := []
    palavras_principais := ["icms".data]
    peso_topo := -50 }

/-- A proposal matching the single priority keyword of `cfgNeg`. -/
def propNeg : Proposicao :=
  { id := "9".data, siglaTipo := "PL".data, numero := "1".data, ano := "2025".data
    ementa := "icms".data, keywords := [], descricaoTipo := []
    descricaoSituacao := [], dataHora := [], regime := [] }

/-- Counterexample to C3 as stated: with a configured keyword weight of −50 the
notifier's `calcular_match` returns a match whose relevance score is −50, far
outside [0,100]; and with that weight adding a second matched keyword lowers
the score further (−100), so the score is not monotone either. -/
theorem score_fora_do_intervalo_com_peso_negativo :
    Option.map Notificar.MatchFen.score (Notificar.calcular_match propNeg cfgNeg)
        = some (-50)
    ∧ ((-50 : Int) < 0)
    ∧ Notificar.score_fen (-50) [] 2 [] false < Notificar.score_fen (-50) [] 1 [] false := by
  refine ⟨by rfl, by norm_num, by decide⟩

/-- C3 (amended): the scores are always clamped above at 100; the dashboard's
`_calcular_score` (fixed positive weights) always lies in [0,100] and is
monotone in the number of matched keywords and matched themes; the notifier's
score lies in [0,100] and is monotone in the number of distinct matched
priority keywords and in the distinct matched themes *provided* the configured
weights (`peso_topo` and every theme weight) are nonnegative. -/
theorem score_limitado_e_monotono :
    (∀ (p : Proposicao) (pm tm : List Str),
        0 ≤ Monitor._calcular_score p pm tm ∧ Monitor._calcular_score p pm tm ≤ 100)
    ∧ (∀ (p : Proposicao) (pm pm' tm tm' : List Str),
        pm.length ≤ pm'.length → tm.length ≤ tm'.length →
        Monitor._calcular_score p pm tm ≤ Monitor._calcular_score p pm' tm')
    ∧ (∀ (pt : Int) (tp : List (Str × Int)) (n : Nat) (td : List Str) (u : Bool),
        0 ≤ pt → (∀ t, 0 ≤ Notificar.lookupPeso tp t) →
        0 ≤ Notificar.score_fen pt tp n td u ∧ Notificar.score_fen pt tp n td u ≤ 100)
    ∧ (∀ (pt : Int) (tp : List (Str × Int)) (n n' : Nat) (td : List Str) (u : Bool),
        0 ≤ pt → n ≤ n' →
        Notificar.score_fen pt tp n td u ≤ Notificar.score_fen pt tp n' td u)
    ∧ (∀ (pt : Int) (tp : List (Str × Int)) (n : Nat) (t : Str) (td : List Str) (u : Bool),
        0 ≤ Notificar.lookupPeso tp t →
        Notificar.score_fen pt tp n td u ≤ Notificar.score_fen pt tp n (t :: td) u) := by
  refine ⟨?_, ?_, ?_, ?_, ?_⟩
  · intro p pm tm
    have hp := PESO_TIPO_PROPOSICAO_pos (p.siglaTipo.map Char.toUpper)
    have h1 : (0 : Int) ≤ (pm.length : Int) * 10 := by positivity
    have h2 : (0 : Int) ≤ (tm.length : Int) * 10 := by positivity
    unfold Monitor._calcular_score
    repeat' split
    all_goals omega
  · intro p pm pm' tm tm' hn hm
    have h1 : (pm.length : Int) * 10 ≤ (pm'.length : Int) * 10 := by
      have : (pm.length : Int) ≤ (pm'.length : Int) := by exact_mod_cast hn
      linarith
    have h2 : (tm.length : Int) * 10 ≤ (tm'.length : Int) * 10 := by
      have : (tm.length : Int) ≤ (tm'.length : Int) := by exact_mod_cast hm
      linarith
    unfold Monitor._calcular_score
    repeat' split
    all_goals omega
  · intro pt tp n td u hpt hpesos
    have h1 : (0 : Int) ≤ (n : Int) * pt := by positivity
    have h2 : (0 : Int) ≤ (td.map fun t => min (Notificar.lookupPeso tp t) 20).sum := by
      refine List.sum_nonneg ?_
      intro x hx
      rcases List.mem_map.mp hx with ⟨t, _, rfl⟩
      exact le_min (hpesos t) (by norm_num)
    unfold Notificar.score_fen
    repeat' split
    all_goals omega
  · intro pt tp n n' td u hpt hn
    have h1 : (n : Int) * pt ≤ (n' : Int) * pt := by
      apply mul_le_mul_of_nonneg_right _ hpt
      exact_mod_cast hn
    unfold Notificar.score_fen
    repeat' split
    all_goals omega
  · intro pt tp n t td u hpeso
    have h0 : (0 : Int) ≤ min (Notificar.lookupPeso tp t) 20 := le_min hpeso (by norm_num)
    have hl : td.length ≤ (t :: td).length := by simp
    unfold Notificar.score_fen
    simp only [List.map_cons, List.sum_cons, List.length_cons]
    repeat' split
    all_goals omega

/-- Witness for `score_limitado_e_monotono`: with the spec's default weight 10
the notifier's score of one matched keyword and one matched theme is within
bounds, and growing the matched sets never shrinks it. -/
theorem score_limitado_e_monotono_witness :
    (0 ≤ Notificar.score_fen 10 [] 1 [['T']] false
      ∧ Notificar.score_fen 10 [] 1 [['T']] false ≤ 100)
    ∧ Notificar.score_fen 10 [] 1 [] false ≤ Notificar.score_fen 10 [] 2 [] false :=
  ⟨score_limitado_e_monotono.2.2.1 10 [] 1 [['T']] false (by norm_num)
      (fun t => by simp [Notificar.lookupPeso]),
   score_limitado_e_monotono.2.2.2.1 10 [] 1 2 [] false (by norm_num) (by norm_num)⟩

/-- An engine with one priority keyword, no exclusions and no themes. -/
def engTrabalho : Monitor.MatchingEngine :=
  { id_cliente := "fenajufe".data
    palavras_principais := ["trabalho".data]
    palavras_exclusao := []
    temas_palavras := [] }

/-- A matching proposal whose current situation is the terminal
"Perdeu a eficácia". -/
def propEficacia : Proposicao :=
  { id := "123".data, siglaTipo := "PL".data, numero := "10".data, ano := "2025".data
    ementa := "trabalho escravo".data, keywords := [], descricaoTipo := []
    descricaoSituacao := "Perdeu a eficácia".data, dataHora := [], regime := [] }

/-- The notifier profile with the same single keyword. -/
def cfgTrabalho : Notificar.Cfg :=
  { temas := []
    tema_pesos := []
    exclusoes := []
    palavras_principais := ["trabalho".data]
    peso_topo := 10 }

/-- C1, divergence evidence: the situation "Perdeu a eficácia" contains the
terminal-tramitation term "perdeu a eficácia" under the diacritic-insensitive
comparison the claim (and `normalize_text`) prescribes, yet the dashboard's
`MatchingEngine.calcular_match` still returns a match — its
`SITUACOES_FORA_TRAMITACAO` entry keeps its accents while the situation text
has been de-accented, so the accented entries can never fire.  The notifier's
v2 `calcular_match`, whose `SITUACOES_ENCERRADAS` list is written without
accents, rejects the very same proposal. -/
theorem situacao_terminal_acentuada_nao_filtra :
    isSubstr (normalize_text ("perdeu a eficácia".data))
        (normalize_text propEficacia.descricaoSituacao) = true
    ∧ ("perdeu a eficácia".data) ∈ Monitor.SITUACOES_FORA_TRAMITACAO
    ∧ Monitor.situacao_fora propEficacia = false
    ∧ (engTrabalho.calcular_match propEficacia).isSome = true
    ∧ Notificar.calcular_match propEficacia cfgTrabalho = none := by
  refine ⟨by decide, by decide, by decide, by decide, by decide⟩

/-- Sample metadata record for the dedup store. -/
def metaEx : Notificar.RegistroNotificacao :=
  { ts := [], proposicao := [], nivel := NivelAlerta.Info, score := 0 }

/-- Counterexample to C5 as stated: the timestamps `""` and `"sem_data"` are
different, yet they produce the same dedup key, so after recording the
empty-timestamp event the `"sem_data"`-timestamp event of the same proposal is
reported as already sent instead of as a new, notifiable event. -/
theorem chave_colisao_sem_data :
    ([] : Str) ≠ "sem_data".data
    ∧ Notificar.chave_notificacao ("123".data) []
        = Notificar.chave_notificacao ("123".data) ("sem_data".data)
    ∧ Notificar.jaNotificado (Notificar.chave_notificacao ("123".data) ("sem_data".data))
        (Notificar.registrar (Notificar.chave_notificacao ("123".data) []) metaEx []) = true := by
  refine ⟨by decide, by decide, by decide⟩

theorem any_key_map_sobrescrita {k k' : Str} (hkk : k ≠ k')
    (meta : Notificar.RegistroNotificacao) (h : Notificar.Historico) :
    ((h.map fun e => if e.1 = k then (k, meta) else e).any fun e => decide (e.1 = k'))
      = h.any fun e => decide (e.1 = k') := by
  induction h with
  | nil => rfl
  | cons e t ih =>
    simp only [List.map_cons, List.any_cons, ih]
    by_cases he : e.1 = k
    · simp [he, hkk]
    · simp [he]

theorem registrar_outro_mantem {k k' : Str} (hkk : k ≠ k')
    (meta : Notificar.RegistroNotificacao) (h : Notificar.Historico) :
    Notificar.jaNotificado k' (Notificar.registrar k meta h)
      = Notificar.jaNotificado k' h := by
  unfold Notificar.registrar
  cases hj : Notificar.jaNotificado k h
  · simp only [Bool.false_eq_true, if_false]
    unfold Notificar.jaNotificado
    rw [List.any_append]
    have hsingle : List.any [(k, meta)] (fun e => e.1 = k') = false := by
      simp [hkk]
    rw [hsingle, Bool.or_false]
  · simp only [if_true]
    unfold Notificar.jaNotificado
    exact any_key_map_sobrescrita hkk meta h

/-- C5 (amended): after one `record` the same key reports already sent; two
*nonempty* distinct timestamps of one proposal always give distinct keys (an
empty timestamp is encoded as the literal `"sem_data"`, so exactly those two
collide — the exception forced by the counterexample); and recording one key
leaves the dedup answer for every other key unchanged, so an event with a
fresh key stays notifiable. -/
theorem dedup_idempotente :
    (∀ (key : Str) (meta : Notificar.RegistroNotificacao) (h : Notificar.Historico),
        Notificar.jaNotificado key (Notificar.registrar key meta h) = true)
    ∧ (∀ (pid dh dh' : Str), dh ≠ [] → dh' ≠ [] → dh ≠ dh' →
        Notificar.chave_notificacao pid dh ≠ Notificar.chave_notificacao pid dh')
    ∧ (∀ (k k' : Str) (meta : Notificar.RegistroNotificacao) (h : Notificar.Historico),
        k ≠ k' →
        Notificar.jaNotificado k' (Notificar.registrar k meta h)
          = Notificar.jaNotificado k' h) := by
  refine ⟨jaNotificado_registrar_self, ?_, ?_⟩
  · intro pid dh dh' hne hne' hdiff heq
    unfold Notificar.chave_notificacao at heq
    have h1 := List.append_cancel_left heq
    have h2 := List.append_cancel_left h1
    simp only [List.isEmpty_iff, hne, hne', if_neg] at h2
    exact hdiff h2
  · intro k k' meta h hkk
    exact registrar_outro_mantem hkk meta h

/-- Witness for `dedup_idempotente`: two concrete distinct nonempty timestamps
give distinct keys, and a recorded key reports already sent. -/
theorem dedup_idempotente_witness :
    Notificar.chave_notificacao ("1".data) ("2025-01-01T10:00".data)
      ≠ Notificar.chave_notificacao ("1".data) ("2025-01-02T10:00".data)
    ∧ Notificar.jaNotificado ("k".data) (Notificar.registrar ("k".data) metaEx []) = true :=
  ⟨dedup_idempotente.2.1 ("1".data) ("2025-01-01T10:00".data) ("2025-01-02T10:00".data)
      (by decide) (by decide) (by decide),
   dedup_idempotente.1 ("k".data) metaEx []⟩

/-- C10: the dedup key of a timestamp-less status event is the fixed string
`<id>::sem_data`, hence all timestamp-less events of one proposal share a
single key, and once that key is recorded every later timestamp-less
occurrence is reported as already sent. -/
theorem chave_sem_data_fixa :
    (∀ pid : Str, Notificar.chave_notificacao pid [] = pid ++ ("::sem_data".data))
    ∧ (∀ (pid : Str) (meta : Notificar.RegistroNotificacao) (h : Notificar.Historico),
        Notificar.jaNotificado (Notificar.chave_notificacao pid [])
          (Notificar.registrar (Notificar.chave_notificacao pid []) meta h) = true) :=
  ⟨fun _ => rfl, fun _ meta h => jaNotificado_registrar_self _ meta h⟩

theorem adicionar_data (stored : Option Notificar.ResumoDia) (hoje sigla : Str) :
    (Notificar.adicionar_ao_resumo stored hoje sigla).data = hoje := by
  simp only [Notificar.adicionar_ao_resumo]
  split
  · split
    · rfl
    · rfl
  · rename_i hd
    push_neg at hd
    split
    · exact hd
    · exact hd

theorem adicionar_mem (stored : Option Notificar.ResumoDia) (hoje sigla : Str) :
    sigla ∈ (Notificar.adicionar_ao_resumo stored hoje sigla).itens := by
  simp only [Notificar.adicionar_ao_resumo]
  split
  · split
    · rename_i hm
      exact hm
    · simp
  · split
    · rename_i hm
      exact hm
    · simp

theorem adicionar_noop (r : Notificar.ResumoDia) (hoje sigla : Str)
    (hd : r.data = hoje) (hm : sigla ∈ r.itens) :
    Notificar.adicionar_ao_resumo (some r) hoje sigla = r := by
  subst hd
  simp [Notificar.adicionar_ao_resumo, Notificar.carregar_resumo_dia, hm]

/-- Counterexample to C9 as stated: the bare digest read
(`carregar_resumo_dia`) consults no clock and performs no reset, so on the
next day it still returns the previous day's stored labels instead of an
empty digest. -/
theorem resumo_leitura_nao_reseta :
    Notificar.carregar_resumo_dia
        (some { data := "2025-10-11".data, itens := ["PL 123/2025".data] })
      = { data := "2025-10-11".data, itens := ["PL 123/2025".data] }
    ∧ ("2025-10-11".data : Str) ≠ "2025-10-12".data :=
  ⟨rfl, by decide⟩

/-- C9 (amended): the reset is carried out by the *write* path
(`adicionar_ao_resumo`), not by the bare read: adding a label always leaves
the current day stored; on a day change the digest is reset so the result
holds exactly the freshly added label; any label in the digest after an add is
either the new one or a same-day survivor (day-D labels never resurface on
day D+1 through adds); and adding the same label twice on one day stores it
once.  A bare `carregar_resumo_dia`, however, returns the stored labels
unchanged whatever the current day. -/
theorem resumo_reset_na_escrita :
    (∀ (stored : Option Notificar.ResumoDia) (hoje sigla : Str),
        (Notificar.adicionar_ao_resumo stored hoje sigla).data = hoje)
    ∧ (∀ (stored : Option Notificar.ResumoDia) (hoje sigla : Str),
        (Notificar.carregar_resumo_dia stored).data ≠ hoje →
        (Notificar.adicionar_ao_resumo stored hoje sigla).itens = [sigla])
    ∧ (∀ (stored : Option Notificar.ResumoDia) (hoje sigla l : Str),
        l ∈ (Notificar.adicionar_ao_resumo stored hoje sigla).itens →
        l = sigla ∨ ((Notificar.carregar_resumo_dia stored).data = hoje
          ∧ l ∈ (Notificar.carregar_resumo_dia stored).itens))
    ∧ (∀ (stored : Option Notificar.ResumoDia) (hoje sigla : Str),
        Notificar.adicionar_ao_resumo
            (some (Notificar.adicionar_ao_resumo stored hoje sigla)) hoje sigla
          = Notificar.adicionar_ao_resumo stored hoje sigla)
    ∧ (∀ (r : Notificar.ResumoDia), Notificar.carregar_resumo_dia (some r) = r) := by
  refine ⟨adicionar_data, ?_, ?_, ?_, fun _ => rfl⟩
  · intro stored hoje sigla hd
    simp only [Notificar.adicionar_ao_resumo]
    rw [if_pos hd]
    rw [if_neg (by simp)]
    rfl
  · intro stored hoje sigla l hl
    simp only [Notificar.adicionar_ao_resumo] at hl
    by_cases hd : (Notificar.carregar_resumo_dia stored).data ≠ hoje
    · rw [if_pos hd] at hl
      rw [if_neg (by simp)] at hl
      simp at hl
      exact Or.inl hl
    · rw [if_neg hd] at hl
      push_neg at hd
      by_cases hm : sigla ∈ (Notificar.carregar_resumo_dia stored).itens
      · rw [if_pos hm] at hl
        exact Or.inr ⟨hd, hl⟩
      · rw [if_neg hm] at hl
        simp only [List.mem_append, List.mem_singleton] at hl
        rcases hl with hl | hl
        · exact Or.inr ⟨hd, hl⟩
        · exact Or.inl hl
  · intro stored hoje sigla
    exact adicionar_noop _ hoje sigla (adicionar_data stored hoje sigla)
      (adicionar_mem stored hoje sigla)

/-- Witness for `resumo_reset_na_escrita`: adding on the next calendar day
resets the digest to exactly the new label, and re-adding a label on one day
is a no-op. -/
theorem resumo_reset_na_escrita_witness :
    (Notificar.adicionar_ao_resumo
        (some { data := "2025-10-11".data, itens := ["PL 123/2025".data] })
        ("2025-10-12".data) ("PEC 9/2025".data)).itens = ["PEC 9/2025".data]
    ∧ Notificar.adicionar_ao_resumo
        (some (Notificar.adicionar_ao_resumo none ("2025-10-12".data) ("PEC 9/2025".data)))
        ("2025-10-12".data) ("PEC 9/2025".data)
      = Notificar.adicionar_ao_resumo none ("2025-10-12".data) ("PEC 9/2025".data) :=
  ⟨resumo_reset_na_escrita.2.1
      (some { data := "2025-10-11".data, itens := ["PL 123/2025".data] })
      ("2025-10-12".data) ("PEC 9/2025".data) (by decide),
   resumo_reset_na_escrita.2.2.2.1 none ("2025-10-12".data) ("PEC 9/2025".data)⟩

/-- A proposal sitting on the agenda (`em pauta`): the classifier must answer
Critico whatever the score. -/
def propPauta : Proposicao :=
  { id := "77".data, siglaTipo := "PEC".data, numero := "9".data, ano := "2025".data
    ementa := [], keywords := [], descricaoTipo := []
    descricaoSituacao := "Matéria em pauta no plenário".data, dataHora := [], regime := [] }

/-- Witness for `nivel_alerta_ordem_fixa`: an agenda item with score 0 is
Critico, and a calm low-score proposal is Info. -/
theorem nivel_alerta_ordem_fixa_witness :
    (Monitor.em_pauta propPauta = true
      ∧ Monitor._determinar_nivel_alerta propPauta 0 = NivelAlerta.Critico)
    ∧ (Monitor.em_pauta propHom = false ∧ Monitor.regime_urgente propHom = false
      ∧ Monitor._determinar_nivel_alerta propHom 19 = NivelAlerta.Info) :=
  ⟨⟨by decide, nivel_alerta_ordem_fixa.1 propPauta 0 (by decide)⟩,
   ⟨by decide, by decide,
    (nivel_alerta_ordem_fixa.2.2.2.2.2) propHom 19 (by decide) (by decide) (by decide)⟩⟩

/-- C7: a real-time Telegram send whose severity is below Critico is
suppressed (returns `False` without attempting delivery) whenever the current
hour falls inside the profile's quiet-hours window — including windows that
wrap past midnight — while a Critico send at the same hour, with credentials
configured, proceeds to the delivery attempt. -/
theorem telegram_horario_silencioso :
    (∀ (config : Monitor.ConfiguracaoCliente) (token : Str) (hora : Nat)
        (nivel : NivelAlerta) (rede : Bool),
        Monitor.is_horario_silencioso config hora = true → nivel ≠ NivelAlerta.Critico →
        Monitor.SistemaAlertas.enviar_telegram config token hora nivel rede
          = { tentou_envio := false, retorno := false })
    ∧ (∀ (config : Monitor.ConfiguracaoCliente) (token : Str) (hora : Nat) (rede : Bool),
        config.telegram_chat_id ≠ [] → token ≠ [] →
        Monitor.SistemaAlertas.enviar_telegram config token hora NivelAlerta.Critico rede
          = { tentou_envio := true, retorno := rede }) := by
  constructor
  · intro config token hora nivel rede hsil hniv
    unfold Monitor.SistemaAlertas.enviar_telegram
    split
    · rfl
    · rw [if_pos]
      simp [hniv, hsil]
  · intro config token hora rede hchat htok
    unfold Monitor.SistemaAlertas.enviar_telegram
    rw [if_neg (by simp [List.isEmpty_iff, hchat, htok])]
    rw [if_neg (by simp)]

/-- The spec scenario profile: quiet hours 22h–7h. -/
def cfgSilencio : Monitor.ConfiguracaoCliente :=
  { telegram_chat_id := "-100".data
    horario_silencioso_inicio := 22
    horario_silencioso_fim := 7 }

/-- Witness for `telegram_horario_silencioso`: quiet hours 22–7, hour 23 —
a Medio send is suppressed, a Critico send goes out. -/
theorem telegram_horario_silencioso_witness :
    Monitor.is_horario_silencioso cfgSilencio 23 = true
    ∧ Monitor.SistemaAlertas.enviar_telegram cfgSilencio ("tok".data) 23 NivelAlerta.Medio true
        = { tentou_envio := false, retorno := false }
    ∧ Monitor.SistemaAlertas.enviar_telegram cfgSilencio ("tok".data) 23 NivelAlerta.Critico true
        = { tentou_envio := true, retorno := true } :=
  ⟨by decide,
   telegram_horario_silencioso.1 cfgSilencio ("tok".data) 23 NivelAlerta.Medio true
     (by decide) (by decide),
   telegram_horario_silencioso.2 cfgSilencio ("tok".data) 23 true (by decide) (by decide)⟩

/-- Well-ordered notification traces: every send event is strictly preceded by
the in-memory record of its dedup key and, after it, a persistence of the
history store. -/
def eventos_ordenados (tr : List Notificar.Evento) : Prop :=
  ∀ (i : Nat) (k : Str), tr[i]? = some (Notificar.Evento.envia k) →
    ∃ j j', j < j' ∧ j' < i
      ∧ tr[j]? = some (Notificar.Evento.registra k)
      ∧ tr[j']? = some Notificar.Evento.persiste

theorem eventos_ordenados_nil : eventos_ordenados [] := by
  intro i k hi
  simp at hi

theorem eventos_ordenados_append {t1 t2 : List Notificar.Evento}
    (h1 : eventos_ordenados t1) (h2 : eventos_ordenados t2) :
    eventos_ordenados (t1 ++ t2) := by
  intro i k hi
  by_cases hlt : i < t1.length
  · rw [List.getElem?_append, if_pos hlt] at hi
    rcases h1 i k hi with ⟨j, j', hjj, hji, hj, hj'⟩
    refine ⟨j, j', hjj, hji, ?_, ?_⟩
    · rw [List.getElem?_append, if_pos (by omega)]
      exact hj
    · rw [List.getElem?_append, if_pos (by omega)]
      exact hj'
  · push_neg at hlt
    rw [List.getElem?_append_right hlt] at hi
    rcases h2 _ k hi with ⟨j, j', hjj, hji, hj, hj'⟩
    refine ⟨t1.length + j, t1.length + j', by omega, by omega, ?_, ?_⟩
    · rw [List.getElem?_append_right (by omega), Nat.add_sub_cancel_left]
      exact hj
    · rw [List.getElem?_append_right (by omega), Nat.add_sub_cancel_left]
      exact hj'

theorem eventos_ordenados_bloco (k s : Str) :
    eventos_ordenados [Notificar.Evento.registra k, Notificar.Evento.persiste,
      Notificar.Evento.envia k, Notificar.Evento.resumo s] := by
  intro i k' hi
  rcases i with _ | _ | _ | _ | n
  · simp at hi
  · simp at hi
  · simp at hi
    subst hi
    exact ⟨0, 1, by omega, by omega, rfl, rfl⟩
  · simp at hi
  · simp at hi

theorem passo_varredura_forma (cfg : Notificar.Cfg) (sm : Int) (ts : Str)
    (p : Proposicao) (h : Notificar.Historico) :
    (Notificar.passo_varredura cfg sm ts p h).1 = []
    ∨ ∃ k s, (Notificar.passo_varredura cfg sm ts p h).1
        = [Notificar.Evento.registra k, Notificar.Evento.persiste,
           Notificar.Evento.envia k, Notificar.Evento.resumo s] := by
  unfold Notificar.passo_varredura
  split
  · exact Or.inl rfl
  · split
    · exact Or.inl rfl
    · split
      · exact Or.inl rfl
      · dsimp only
        split
        · exact Or.inl rfl
        · exact Or.inr ⟨_, _, rfl⟩

theorem eventos_ordenados_varredura_aux (cfg : Notificar.Cfg) (sm : Int) (ts : Str) :
    ∀ (props : List Proposicao) (acc : List Notificar.Evento) (h : Notificar.Historico),
      eventos_ordenados acc →
      eventos_ordenados (props.foldl
        (fun acc p =>
          let r := Notificar.passo_varredura cfg sm ts p acc.2
          (acc.1 ++ r.1, r.2)) (acc, h)).1 := by
  intro props
  induction props with
  | nil =>
    intro acc h hacc
    simpa using hacc
  | cons p rest ih =>
    intro acc h hacc
    rw [List.foldl_cons]
    apply ih
    apply eventos_ordenados_append hacc
    rcases passo_varredura_forma cfg sm ts p h with he | ⟨k, s, he⟩
    · rw [he]
      exact eventos_ordenados_nil
    · rw [he]
      exact eventos_ordenados_bloco k s

/-- C6: in the scan cycle, every send attempt in the emitted event trace is
strictly preceded by the write of the corresponding dedup record and by its
persistence to the history store — no send is ever attempted for a new event
whose key has not already been recorded. -/
theorem varredura_registra_antes_de_enviar (cfg : Notificar.Cfg) (sm : Int) (ts : Str)
    (props : List Proposicao) (h : Notificar.Historico) :
    eventos_ordenados (Notificar.executar_varredura cfg sm ts props h).1 := by
  unfold Notificar.executar_varredura
  exact eventos_ordenados_varredura_aux cfg sm ts props [] h eventos_ordenados_nil

/-- A fresh matching proposal that survives every filter of the scan loop. -/
def propVarredura : Proposicao :=
  { id := "900".data, siglaTipo := "PL".data, numero := "1".data, ano := "2025".data
    ementa := "auxilio ao trabalho".data, keywords := [], descricaoTipo := []
    descricaoSituacao := "Em tramitação".data, dataHora := "2025-10-10T12:00".data
    regime := [] }

/-- Witness for `varredura_registra_antes_de_enviar`: scanning one fresh
matching proposal puts its send at index 2 of the trace, and the theorem
yields the record and persist events strictly before it. -/
theorem varredura_registra_antes_de_enviar_witness :
    (Notificar.executar_varredura cfgTrabalho 0 ("ts".data) [propVarredura] []).1[2]?
        = some (Notificar.Evento.envia
            (Notificar.chave_notificacao ("900".data) ("2025-10-10T12:00".data)))
    ∧ ∃ j j', j < j' ∧ j' < 2
        ∧ (Notificar.executar_varredura cfgTrabalho 0 ("ts".data) [propVarredura] []).1[j]?
            = some (Notificar.Evento.registra
                (Notificar.chave_notificacao ("900".data) ("2025-10-10T12:00".data)))
        ∧ (Notificar.executar_varredura cfgTrabalho 0 ("ts".data) [propVarredura] []).1[j']?
            = some Notificar.Evento.persiste :=
  ⟨by decide,
   varredura_registra_antes_de_enviar cfgTrabalho 0 ("ts".data) [propVarredura] [] 2
     (Notificar.chave_notificacao ("900".data) ("2025-10-10T12:00".data)) (by decide)⟩

theorem perm_any {α : Type} {l l' : List α} (h : l.Perm l') (f : α → Bool) :
    l.any f = l'.any f := by
  cases hl : l.any f
  · cases hl' : l'.any f
    · rfl
    · rcases List.any_eq_true.mp hl' with ⟨a, ha, hf⟩
      have hc := List.any_eq_true.mpr ⟨a, h.mem_iff.mpr ha, hf⟩
      rw [hl] at hc
      exact absurd hc (by simp)
  · rcases List.any_eq_true.mp hl with ⟨a, ha, hf⟩
    exact (List.any_eq_true.mpr ⟨a, h.mem_iff.mp ha, hf⟩).symm

theorem perm_isEmpty {α : Type} {l l' : List α} (h : l.Perm l') :
    l.isEmpty = l'.isEmpty := by
  cases l with
  | nil =>
    have := h.symm.eq_nil
    simp [this]
  | cons a t =>
    cases l' with
    | nil => exact absurd h.eq_nil (by simp)
    | cons b t' => rfl

theorem sortedSet_nodup (l : List Str) : (Notificar.sortedSet l).Nodup :=
  ((List.perm_insertionSort _ _).nodup_iff).mpr (List.nodup_dedup l)

theorem sortedSet_sorted (l : List Str) : (Notificar.sortedSet l).Sorted (· ≤ ·) :=
  List.sorted_insertionSort _ _

theorem sortedSet_perm_eq {l l' : List Str} (h : l.Perm l') :
    Notificar.sortedSet l = Notificar.sortedSet l' :=
  List.eq_of_perm_of_sorted
    ((List.perm_insertionSort _ _).trans ((h.dedup).trans (List.perm_insertionSort _ _).symm))
    (sortedSet_sorted l) (sortedSet_sorted l')

theorem score_fen_perm (pt : Int) (tp : List (Str × Int)) (n : Nat) {l l' : List Str}
    (h : l.Perm l') (u : Bool) :
    Notificar.score_fen pt tp n l u = Notificar.score_fen pt tp n l' u := by
  unfold Notificar.score_fen
  rw [(h.map _).sum_eq, h.length_eq]

theorem calcular_match_saida (p : Proposicao) (cfg : Notificar.Cfg)
    (m : Notificar.MatchFen) (h : Notificar.calcular_match p cfg = some m) :
    m.temas_match.Nodup ∧ m.temas_match.Sorted (· ≤ ·)
    ∧ m.palavras_match.Nodup ∧ m.palavras_match.Sorted (· ≤ ·)
    ∧ m.palavras_match.length ≤ 10 := by
  simp only [Notificar.calcular_match] at h
  split at h
  · exact absurd h (by simp)
  · split at h
    · exact absurd h (by simp)
    · split at h
      · exact absurd h (by simp)
      · rw [Option.some.injEq] at h
        subst h
        refine ⟨sortedSet_nodup _, sortedSet_sorted _, ?_, ?_, ?_⟩
        · exact (sortedSet_nodup _).sublist (List.take_sublist _ _)
        · exact (sortedSet_sorted _).sublist (List.take_sublist _ _)
        · exact List.length_take_le _ _

theorem calcular_match_invariante (p : Proposicao) (cfg cfg' : Notificar.Cfg)
    (ht : cfg.temas.Perm cfg'.temas)
    (hp : cfg.palavras_principais.Perm cfg'.palavras_principais)
    (he : cfg.exclusoes.Perm cfg'.exclusoes)
    (hw : cfg.tema_pesos = cfg'.tema_pesos)
    (hpt : cfg.peso_topo = cfg'.peso_topo) :
    Notificar.calcular_match p cfg = Notificar.calcular_match p cfg' := by
  have hexcl : Notificar.texto_excluido cfg (texto_analise p)
      = Notificar.texto_excluido cfg' (texto_analise p) := perm_any he _
  have hpm : (Notificar.palavras_match_de cfg (texto_analise p)).Perm
      (Notificar.palavras_match_de cfg' (texto_analise p)) := hp.filter _
  have hhits : (Notificar.temaHits cfg (texto_analise p)).Perm
      (Notificar.temaHits cfg' (texto_analise p)) := ht.filterMap _
  have htm : ((Notificar.temaHits cfg (texto_analise p)).map Prod.fst).Perm
      ((Notificar.temaHits cfg' (texto_analise p)).map Prod.fst) := hhits.map _
  simp only [Notificar.calcular_match]
  rw [hexcl, hpt, hw]
  split
  · rfl
  · have hempty : ((Notificar.palavras_match_de cfg (texto_analise p)).isEmpty
        && ((Notificar.temaHits cfg (texto_analise p)).map Prod.fst).isEmpty)
        = ((Notificar.palavras_match_de cfg' (texto_analise p)).isEmpty
        && ((Notificar.temaHits cfg' (texto_analise p)).map Prod.fst).isEmpty) := by
      rw [perm_isEmpty hpm, perm_isEmpty htm]
    rw [hempty]
    split
    · rfl
    · have h1 : Notificar.sortedSet ((Notificar.temaHits cfg (texto_analise p)).map Prod.fst)
          = Notificar.sortedSet ((Notificar.temaHits cfg' (texto_analise p)).map Prod.fst) :=
        sortedSet_perm_eq htm
      have h2 : Notificar.sortedSet ((Notificar.palavras_match_de cfg (texto_analise p))
            ++ (Notificar.temaHits cfg (texto_analise p)).map Prod.snd)
          = Notificar.sortedSet ((Notificar.palavras_match_de cfg' (texto_analise p))
            ++ (Notificar.temaHits cfg' (texto_analise p)).map Prod.snd) :=
        sortedSet_perm_eq (hpm.append (hhits.map _))
      have h3 : Notificar.score_fen cfg'.peso_topo cfg'.tema_pesos
            (Notificar.palavras_match_de cfg (texto_analise p)).length
            ((Notificar.temaHits cfg (texto_analise p)).map Prod.fst).dedup
            (Notificar.regime_urgencia p)
          = Notificar.score_fen cfg'.peso_topo cfg'.tema_pesos
            (Notificar.palavras_match_de cfg' (texto_analise p)).length
            ((Notificar.temaHits cfg' (texto_analise p)).map Prod.fst).dedup
            (Notificar.regime_urgencia p) := by
        rw [hpm.length_eq]
        exact score_fen_perm _ _ _ (htm.dedup) _
      rw [h1, h2, h3]

/-- C8 (amended): every Match the notifier's `calcular_match` returns carries
deduplicated, lexicographically sorted theme and keyword lists, the keyword
list truncated to at most 10 entries after sorting; and the result is
invariant under permutations of the theme map, of the priority-keyword list
and of the exclusion list.  (Reordering keywords *within* one theme can still
change which keyword the theme reports — see the counterexample.) -/
theorem match_saida_ordenada_e_invariancia :
    (∀ (p : Proposicao) (cfg : Notificar.Cfg) (m : Notificar.MatchFen),
        Notificar.calcular_match p cfg = some m →
        m.temas_match.Nodup ∧ m.temas_match.Sorted (· ≤ ·)
        ∧ m.palavras_match.Nodup ∧ m.palavras_match.Sorted (· ≤ ·)
        ∧ m.palavras_match.length ≤ 10)
    ∧ (∀ (p : Proposicao) (cfg cfg' : Notificar.Cfg),
        cfg.temas.Perm cfg'.temas →
        cfg.palavras_principais.Perm cfg'.palavras_principais →
        cfg.exclusoes.Perm cfg'.exclusoes →
        cfg.tema_pesos = cfg'.tema_pesos → cfg.peso_topo = cfg'.peso_topo →
        Notificar.calcular_match p cfg = Notificar.calcular_match p cfg') :=
  ⟨calcular_match_saida, calcular_match_invariante⟩

/-- A theme profile whose single theme lists "icms" before "imposto". -/
def cfgOrd1 : Notificar.Cfg :=
  { temas := [("Tributario".data, ["icms".data, "imposto".data])]
    tema_pesos := [("Tributario".data, 10)]
    exclusoes := []
    palavras_principais := []
    peso_topo := 10 }

/-- The same profile with the keywords inside the theme swapped. -/
def cfgOrd2 : Notificar.Cfg :=
  { temas := [("Tributario".data, ["imposto".data, "icms".data])]
    tema_pesos := [("Tributario".data, 10)]
    exclusoes := []
    palavras_principais := []
    peso_topo := 10 }

/-- A proposal whose summary contains both theme keywords. -/
def propOrd : Proposicao :=
  { id := "7".data, siglaTipo := "PL".data, numero := "2".data, ano := "2025".data
    ementa := "imposto sobre icms".data, keywords := [], descricaoTipo := []
    descricaoSituacao := [], dataHora := [], regime := [] }

/-- Counterexample to C8 as stated: two profiles identical except for the
*order of the keywords inside one theme* give different Matches for the same
proposal — the theme loop reports the first keyword that matches, so the
returned keyword list is not independent of keyword iteration order. -/
theorem match_depende_da_ordem_interna_do_tema :
    Notificar.calcular_match propOrd cfgOrd1 ≠ Notificar.calcular_match propOrd cfgOrd2
    ∧ Option.map Notificar.MatchFen.palavras_match (Notificar.calcular_match propOrd cfgOrd1)
        = some ["icms".data]
    ∧ Option.map Notificar.MatchFen.palavras_match (Notificar.calcular_match propOrd cfgOrd2)
        = some ["imposto".data]
    ∧ cfgOrd1.temas = [("Tributario".data, ["icms".data, "imposto".data])]
    ∧ cfgOrd2.temas = [("Tributario".data, ["imposto".data, "icms".data])]
    ∧ cfgOrd1.tema_pesos = cfgOrd2.tema_pesos
    ∧ cfgOrd1.exclusoes = cfgOrd2.exclusoes
    ∧ cfgOrd1.palavras_principais = cfgOrd2.palavras_principais
    ∧ cfgOrd1.peso_topo = cfgOrd2.peso_topo := by
  refine ⟨by decide, by decide, by decide, rfl, rfl, rfl, rfl, rfl, rfl⟩

/-- A profile with two themes and a priority keyword, to exercise the
invariance part of the amended C8. -/
def cfgDois : Notificar.Cfg :=
  { temas := [("Trabalhista".data, ["clt".data]), ("Tributario".data, ["icms".data])]
    tema_pesos := [("Trabalhista".data, 10), ("Tributario".data, 10)]
    exclusoes := ["homenagem".data]
    palavras_principais := ["servidor".data]
    peso_topo := 10 }

/-- `cfgDois` with themes, priority keywords and exclusions permuted. -/
def cfgDoisPerm : Notificar.Cfg :=
  { temas := [("Tributario".data, ["icms".data]), ("Trabalhista".data, ["clt".data])]
    tema_pesos := [("Trabalhista".data, 10), ("Tributario".data, 10)]
    exclusoes := ["homenagem".data]
    palavras_principais := ["servidor".data]
    peso_topo := 10 }

/-- Witness for `match_saida_ordenada_e_invariancia`: on a proposal matching
both themes the output lists are sorted, deduplicated and capped, and
permuting the theme map leaves the Match unchanged. -/
theorem match_saida_ordenada_e_invariancia_witness :
    (Notificar.calcular_match
        { id := "3".data, siglaTipo := "PL".data, numero := "3".data, ano := "2025".data
          ementa := "clt e icms para o servidor".data, keywords := [], descricaoTipo := []
          descricaoSituacao := [], dataHora := [], regime := [] } cfgDois).isSome = true
    ∧ Notificar.calcular_match
        { id := "3".data, siglaTipo := "PL".data, numero := "3".data, ano := "2025".data
          ementa := "clt e icms para o servidor".data, keywords := [], descricaoTipo := []
          descricaoSituacao := [], dataHora := [], regime := [] } cfgDois
      = Notificar.calcular_match
        { id := "3".data, siglaTipo := "PL".data, numero := "3".data, ano := "2025".data
          ementa := "clt e icms para o servidor".data, keywords := [], descricaoTipo := []
          descricaoSituacao := [], dataHora := [], regime := [] } cfgDoisPerm :=
  ⟨by decide,
   match_saida_ordenada_e_invariancia.2
     { id := "3".data, siglaTipo := "PL".data, numero := "3".data, ano := "2025".data
       ementa := "clt e icms para o servidor".data, keywords := [], descricaoTipo := []
       descricaoSituacao := [], dataHora := [], regime := [] }
     cfgDois cfgDoisPerm (by decide) (by decide) (by decide) rfl rfl⟩

/-- Witness for `chave_sem_data_fixa`: the concrete timestamp-less key and its
dedup behaviour. -/
theorem chave_sem_data_fixa_witness :
    Notificar.chave_notificacao ("123".data) [] = ("123::sem_data".data)
    ∧ Notificar.jaNotificado (Notificar.chave_notificacao ("123".data) [])
        (Notificar.registrar (Notificar.chave_notificacao ("123".data) []) metaEx []) = true :=
  ⟨(chave_sem_data_fixa.1 ("123".data)).trans (by decide),
   chave_sem_data_fixa.2 ("123".data) metaEx []⟩
